import Mathlib

/-!
Shallow embedding of the GreenLink-Transportor assignment core:
`src/services/orderService.ts`, `src/services/containerService.ts` and
`src/utils/geocoding.ts`, verified against the natural-language specification.

Modelling conventions:
* The Supabase store is a `DB` value holding the `orders` and `containers`
  tables as lists of rows.  `.update(payload).eq('id', x).select('*').single()`
  is modelled by applying the payload to every row whose id matches and then
  requiring exactly one matching row (`.single()` errors on 0 or >1 rows).
* `new Date().toISOString()` is an ambient clock; the model threads it as an
  explicit `now : Time` argument (an abstract tick).
* Each `await supabase...` round-trip is one atomic step; a thrown JS `Error`
  is an `Except.error` value.  Crucially, a throw does NOT undo earlier store
  writes of the same call, so every service function returns the store it
  leaves behind together with its result.
* JS numeric ids are `Int` (the services check `id <= 0`); container ids are
  `String` (UUIDs).  Coordinates and sensor readings are `ℚ`.
-/

namespace GreenLink

/-- Order status union type from `src/types` / the `orders.status` CHECK. -/
inductive OrderStatus
  | pending
  | confirmed
  | processing
  | shipped
  | delivered
  | completed
  | cancelled
deriving DecidableEq, Repr

/-- Container status union type (`containers.status` CHECK). -/
inductive ContainerStatus
  | active
  | inactive
  | warning
deriving DecidableEq, Repr

/-- Abstract timestamp tick standing for an ISO-8601 string. -/
abbrev Time := Nat

/-- Row of the `orders` table (the columns the assignment core touches). -/
structure Order where
  id : Int
  status : OrderStatus
  container_id : Option String
  vehicle_id : Option Int
  transporter_id : Option Int
  assigned_at : Option Time
  delivery_time : Option Time
  updated_at : Time
deriving DecidableEq, Repr

/-- Row of the `containers` table. -/
structure Container where
  id : String
  name : String
  status : ContainerStatus
  assigned_to : Option Int
  vehicle_id : Option Int
  complete_order : Option Int
  current_lat : Option ℚ
  current_lng : Option ℚ
  latitude : Option ℚ
  longitude : Option ℚ
  location : Option String
  temperature : Option ℚ
  humidity : Option ℚ
  battery_level : Option ℚ
  created_at : Time
  updated_at : Time
  last_updated : Time
deriving DecidableEq, Repr

/-- The durable store the services mutate. -/
structure DB where
  orders : List Order
  containers : List Container
deriving DecidableEq, Repr

/-- Distinct throw sites of the two services (`throw new Error(...)`). -/
inductive Err
  | invalidOrderId
  | invalidUserId
  | invalidVehicleId
  | invalidContainerId
  | orderFetch
  | noContainerAssigned
  | orderUpdate
  | containerUpdate
deriving DecidableEq, Repr

/-- Broadcast payload of the `container-location-updates` channel
(`location_update` event sent by `updateContainerLocation`). -/
structure LocationEvent where
  container_id : String
  latitude : ℚ
  longitude : ℚ
  timestamp : Time
deriving DecidableEq, Repr

/-- Apply `g` to every element of `l` satisfying `p` (a SQL
`UPDATE ... WHERE p`). -/
def updateWhere (p : α → Bool) (g : α → α) (l : List α) : List α :=
  l.map (fun a => if p a then g a else a)

/-- `.select(...).eq('id', oid).single()` on the `orders` table. -/
def getOrderRow (db : DB) (oid : Int) : Option Order :=
  match db.orders.filter (fun r => r.id == oid) with
  | [o] => some o
  | _ => none

/-- `.update(f).eq('id', oid).select('*').single()` on `orders`: the update
hits every matching row, then `.single()` demands exactly one matched row;
on 0 or >1 matches the call errors (`none`) but the write still stands. -/
def updateOrderRow (db : DB) (oid : Int) (f : Order → Order) :
    Option Order × DB :=
  let db' : DB := { db with orders := updateWhere (fun r => r.id == oid) f db.orders }
  match db.orders.filter (fun r => r.id == oid) with
  | [o] => (some (f o), db')
  | _ => (none, db')

/-- `.update(f).eq('id', cid).select('*').single()` on `containers`. -/
def updateContainerRow (db : DB) (cid : String) (f : Container → Container) :
    Option Container × DB :=
  let db' : DB := { db with containers := updateWhere (fun c => c.id == cid) f db.containers }
  match db.containers.filter (fun c => c.id == cid) with
  | [c] => (some (f c), db')
  | _ => (none, db')

/-- Payload of `assignContainer`'s container update
(`containerService.ts` lines 26-32). -/
def assignContainerUpdate (userId vehicleId : Int) (now : Time)
    (c : Container) : Container :=
  { c with assigned_to := some userId, vehicle_id := some vehicleId,
           status := .active, updated_at := now, last_updated := now }

/-- `assignContainer(containerId, userId, vehicleId)` from
`containerService.ts`: id validation then one unconditional container
update — there is no check that the container is currently unassigned. -/
def assignContainer (db : DB) (containerId : String) (userId vehicleId : Int)
    (now : Time) : Except Err Container × DB :=
  if containerId = "" then (.error .invalidContainerId, db)
  else if userId ≤ 0 then (.error .invalidUserId, db)
  else if vehicleId ≤ 0 then (.error .invalidVehicleId, db)
  else
    match updateContainerRow db containerId (assignContainerUpdate userId vehicleId now) with
    | (none, db1) => (.error .containerUpdate, db1)
    | (some c, db1) => (.ok c, db1)

/-- Payload of `unassignContainer`'s container update
(`containerService.ts` lines 76-83). -/
def unassignContainerUpdate (orderId : Int) (now : Time)
    (c : Container) : Container :=
  { c with assigned_to := none, vehicle_id := none,
           complete_order := some orderId, status := .inactive,
           updated_at := now, last_updated := now }

/-- `unassignContainer(containerId, orderId)`: id validation then one
unconditional container update — no check that the container is assigned
to the order's transporter. -/
def unassignContainer (db : DB) (containerId : String) (orderId : Int)
    (now : Time) : Except Err Container × DB :=
  if containerId = "" then (.error .invalidContainerId, db)
  else if orderId ≤ 0 then (.error .invalidOrderId, db)
  else
    match updateContainerRow db containerId (unassignContainerUpdate orderId now) with
    | (none, db1) => (.error .containerUpdate, db1)
    | (some c, db1) => (.ok c, db1)

/-- `updateContainerLocation(containerId, latitude, longitude)`: writes
`current_lat`/`current_lng`/`last_updated` with NO range validation of the
coordinates, then broadcasts one `location_update` event (the event list in
the result).  On a failed update it throws before the broadcast. -/
def updateContainerLocation (db : DB) (containerId : String)
    (latitude longitude : ℚ) (now : Time) :
    Except Err Container × DB × List LocationEvent :=
  match updateContainerRow db containerId (fun c =>
      { c with current_lat := some latitude, current_lng := some longitude,
               last_updated := now }) with
  | (none, db1) => (.error .containerUpdate, db1, [])
  | (some c, db1) =>
      (.ok c, db1, [{ container_id := containerId, latitude := latitude,
                      longitude := longitude, timestamp := now }])

/-- One element of the `updates` array of
`updateMultipleContainerLocations`. -/
structure LocationUpdateReq where
  containerId : String
  latitude : ℚ
  longitude : ℚ
deriving DecidableEq, Repr

/-- Return value `{ successful, failed, total }` of
`updateMultipleContainerLocations`. -/
structure BatchResult where
  successful : Nat
  failed : Nat
  total : Nat
deriving DecidableEq, Repr

/-- The `updates.map(update => updateContainerLocation(...))` +
`Promise.allSettled` body: every sample is attempted, each against the store
left by the previous ones; outcomes are collected, never short-circuited. -/
def runBatch (db : DB) (updates : List LocationUpdateReq) (now : Time) :
    List (Except Err Container) × DB × List LocationEvent :=
  match updates with
  | [] => ([], db, [])
  | u :: rest =>
      let step := updateContainerLocation db u.containerId u.latitude u.longitude now
      let tail := runBatch step.2.1 rest now
      (step.1 :: tail.1, tail.2.1, step.2.2 ++ tail.2.2)

/-- `updateMultipleContainerLocations(updates)`: `Promise.allSettled` never
rejects, so the function always returns the fulfilled/rejected counts — the
surrounding `try/catch` is unreachable, hence a total function here. -/
def updateMultipleContainerLocations (db : DB)
    (updates : List LocationUpdateReq) (now : Time) :
    BatchResult × DB × List LocationEvent :=
  let out := runBatch db updates now
  ({ successful := (out.1.filter (fun r => r.isOk)).length,
     failed := (out.1.filter (fun r => !r.isOk)).length,
     total := updates.length }, out.2)

/-- Insert payload fields of `createContainer` (the caller-supplied part). -/
structure NewContainerData where
  name : String
  location : Option String
  latitude : Option ℚ
  longitude : Option ℚ
  temperature : Option ℚ
  humidity : Option ℚ
  battery_level : Option ℚ
deriving DecidableEq, Repr

/-- `createContainer(containerData)`: inserts a row with
`status: 'inactive'` and fresh timestamps.  `assigned_to`, `vehicle_id` and
`complete_order` are absent from the payload, so they take the schema
default NULL (`newId` stands for the store-generated UUID). -/
def createContainer (db : DB) (d : NewContainerData) (newId : String)
    (now : Time) : Except Err Container × DB :=
  let c : Container :=
    { id := newId, name := d.name, status := .inactive,
      assigned_to := none, vehicle_id := none, complete_order := none,
      current_lat := none, current_lng := none,
      latitude := d.latitude, longitude := d.longitude, location := d.location,
      temperature := d.temperature, humidity := d.humidity,
      battery_level := d.battery_level,
      created_at := now, updated_at := now, last_updated := now }
  (.ok c, { db with containers := db.containers ++ [c] })

/-- The optional `sensorData` argument of `updateContainerSensorData`. -/
structure SensorData where
  temperature : Option ℚ
  humidity : Option ℚ
  battery_level : Option ℚ
deriving DecidableEq, Repr

/-- Semantics of one key of a JS object spread: a present key overwrites the
column, an absent key leaves it alone. -/
def spreadKey (new old : Option ℚ) : Option ℚ :=
  match new with
  | some v => some v
  | none => old

/-- `updateContainerSensorData(containerId, sensorData)`: the spread
`...sensorData` writes only the keys that are present, plus
`last_updated`. -/
def updateContainerSensorData (db : DB) (containerId : String)
    (s : SensorData) (now : Time) : Except Err Container × DB :=
  match updateContainerRow db containerId (fun c =>
      { c with temperature := spreadKey s.temperature c.temperature,
               humidity := spreadKey s.humidity c.humidity,
               battery_level := spreadKey s.battery_level c.battery_level,
               last_updated := now }) with
  | (none, db1) => (.error .containerUpdate, db1)
  | (some c, db1) => (.ok c, db1)

/-- JS truthiness of the optional `vehicleId` parameter of
`updateOrderStatus` (`undefined` and `0` are falsy). -/
def vehicleTruthy : Option Int → Bool
  | none => false
  | some v => v != 0

/-- The `updateData` object built by `updateOrderStatus`
(`orderService.ts` lines 11-25), as a row transformer. -/
def updateOrderStatusUpdate (status : OrderStatus) (vehicleId : Option Int)
    (now : Time) (o : Order) : Order :=
  let o1 := { o with status := status, updated_at := now }
  let o2 :=
    if status = .confirmed ∧ vehicleTruthy vehicleId then
      { o1 with vehicle_id := vehicleId, assigned_at := some now }
    else o1
  if status = .completed then { o2 with delivery_time := some now } else o2

/-- `updateOrderStatus(orderId, status, vehicleId?)`: one unconditional
order-row update.  The current status is never read, so no transition is
ever rejected; no container row is touched. -/
def updateOrderStatus (db : DB) (orderId : Int) (status : OrderStatus)
    (vehicleId : Option Int) (now : Time) : Except Err Order × DB :=
  match updateOrderRow db orderId (updateOrderStatusUpdate status vehicleId now) with
  | (none, db1) => (.error .orderUpdate, db1)
  | (some o, db1) => (.ok o, db1)

/-- The id validations at the top of `takeOrder`
(`orderService.ts` lines 51-61); `some e` is the thrown error. -/
def takeOrderCheckIds (orderId currentUserId vehicleId : Int) : Option Err :=
  if orderId ≤ 0 then some .invalidOrderId
  else if currentUserId ≤ 0 then some .invalidUserId
  else if vehicleId ≤ 0 then some .invalidVehicleId
  else none

/-- First store round-trip of `takeOrder`/`completeOrder`: fetch the order's
`container_id` (`.select('container_id').single()`, then the
`!orderData?.container_id` guard). -/
def fetchContainerId (db : DB) (orderId : Int) : Except Err String :=
  match getOrderRow db orderId with
  | none => .error .orderFetch
  | some o =>
      match o.container_id with
      | none => .error .noContainerAssigned
      | some cid => .ok cid

/-- Payload of `takeOrder`'s order update (`orderService.ts` lines 83-89).
Note: the current status is never consulted. -/
def takeOrderOrderUpdate (currentUserId vehicleId : Int) (now : Time)
    (o : Order) : Order :=
  { o with status := .confirmed, vehicle_id := some vehicleId,
           transporter_id := some currentUserId,
           assigned_at := some now, updated_at := now }

/-- The id validations plus the fetch round-trip of `takeOrder` — everything
before its first write. -/
def takeOrderPre (db : DB) (orderId currentUserId vehicleId : Int) :
    Except Err String :=
  match takeOrderCheckIds orderId currentUserId vehicleId with
  | some e => .error e
  | none => fetchContainerId db orderId

/-- The write half of `takeOrder`, resumed from the prefetch result `pre`:
the order update, then `assignContainer` as a SEPARATE second round-trip.
A failure of the container write throws, but the already-committed order
write stands — there is no transaction and no rollback. -/
def takeOrderWrites (db : DB) (pre : Except Err String)
    (orderId currentUserId vehicleId : Int) (now : Time) :
    Except Err Order × DB :=
  match pre with
  | .error e => (.error e, db)
  | .ok cid =>
      match updateOrderRow db orderId (takeOrderOrderUpdate currentUserId vehicleId now) with
      | (none, db1) => (.error .orderUpdate, db1)
      | (some upd, db1) =>
          match assignContainer db1 cid currentUserId vehicleId now with
          | (.error e, db2) => (.error e, db2)
          | (.ok _, db2) => (.ok upd, db2)

/-- `takeOrder(orderId, currentUserId, vehicleId)` from `orderService.ts`:
validate ids, fetch `container_id`, update the order row, then call
`assignContainer` — four store round-trips, none of which checks the
order's status or the container's current assignment. -/
def takeOrder (db : DB) (orderId currentUserId vehicleId : Int)
    (now : Time) : Except Err Order × DB :=
  takeOrderWrites db (takeOrderPre db orderId currentUserId vehicleId)
    orderId currentUserId vehicleId now

/-- Payload of `completeOrder`'s order update
(`orderService.ts` lines 143-149). -/
def completeOrderOrderUpdate (now : Time) (o : Order) : Order :=
  { o with status := .completed, delivery_time := some now, updated_at := now }

/-- `completeOrder(orderId)` from `orderService.ts`: validate the id, fetch
`container_id`, update the order row to `completed`, then call
`unassignContainer` as a separate round-trip (same non-atomic shape as
`takeOrder`, and again no status or assignment guard). -/
def completeOrder (db : DB) (orderId : Int) (now : Time) :
    Except Err Order × DB :=
  if orderId ≤ 0 then (.error .invalidOrderId, db)
  else
    match fetchContainerId db orderId with
    | .error e => (.error e, db)
    | .ok cid =>
        match updateOrderRow db orderId (completeOrderOrderUpdate now) with
        | (none, db1) => (.error .orderUpdate, db1)
        | (some upd, db1) =>
            match unassignContainer db1 cid orderId now with
            | (.error e, db2) => (.error e, db2)
            | (.ok _, db2) => (.ok upd, db2)

deriving instance DecidableEq for Except

/-- Outcome of two racing `takeOrder` calls. -/
structure RaceOutcome where
  resultA : Except Err Order
  resultB : Except Err Order
  final : DB
deriving DecidableEq, Repr

/-- One interleaving of two concurrent `takeOrder` calls for the same order:
both callers run their read phase (id checks + `container_id` fetch) before
either writes, then A performs its two writes, then B performs its two
writes.  Every step is one of `takeOrder`'s own atomic store round-trips,
in each call's program order. -/
def takeOrderRace (db : DB) (orderId uA vA uB vB : Int) (tA tB : Time) :
    RaceOutcome :=
  let preA := takeOrderPre db orderId uA vA
  let preB := takeOrderPre db orderId uB vB
  let stepA := takeOrderWrites db preA orderId uA vA tA
  let stepB := takeOrderWrites stepA.2 preB orderId uB vB tB
  { resultA := stepA.1, resultB := stepB.1, final := stepB.2 }

/-- The `Coordinates` interface of `src/utils/geocoding.ts` (JS numbers
modelled as ℚ). -/
structure Coordinates where
  lat : ℚ
  lng : ℚ
deriving DecidableEq, Repr

/-- `SRI_LANKA_CENTER`, the fallback returned when a point string cannot be
parsed. -/
def SRI_LANKA_CENTER : Coordinates := { lat := 7.8731, lng := 80.7718 }

/-- Decimal serialization of a JS number in plain notation: an optional
leading minus sign, one or more integer digits, and an optional decimal
point with further digits — exactly the shape the point regex accepts.
Digits are kept as the literal characters. -/
structure Dec where
  neg : Bool
  intPart : List Char
  fracPart : Option (List Char)
deriving DecidableEq, Repr

/-- Wellformedness of a `Dec` literal: a nonempty integer part and only
digit characters. -/
def Dec.wf (d : Dec) : Prop :=
  d.intPart ≠ [] ∧ (∀ c ∈ d.intPart, c.isDigit = true) ∧
    ∀ c ∈ d.fracPart.getD [], c.isDigit = true

instance (d : Dec) : Decidable d.wf := by
  unfold Dec.wf
  exact inferInstance

/-- Numeric value of a digit string (what `parseFloat` computes for the
integer part). -/
def digitsVal (cs : List Char) : ℕ :=
  cs.foldl (fun acc c => 10 * acc + (c.toNat - 48)) 0

/-- Numeric value of an optional fraction-digit string. -/
def fracVal : Option (List Char) → ℚ
  | none => 0
  | some cs => (digitsVal cs : ℚ) / 10 ^ cs.length

/-- Numeric value of a `Dec` literal. -/
def Dec.val (d : Dec) : ℚ :=
  if d.neg then -((digitsVal d.intPart : ℚ) + fracVal d.fracPart)
  else (digitsVal d.intPart : ℚ) + fracVal d.fracPart

/-- Rendering of an optional fraction-digit string. -/
def fracRender : Option (List Char) → List Char
  | none => []
  | some cs => '.' :: cs

/-- The character sequence a `Dec` literal denotes. -/
def Dec.render (d : Dec) : List Char :=
  (if d.neg then ['-'] else []) ++ d.intPart ++ fracRender d.fracPart

/-- Greedy split of the leading digit run (the `\d+` / `\d*` pieces of the
point regex; greediness is exact here because a digit can never start the
regex's next token). -/
def spanDigits : List Char → List Char × List Char
  | [] => ([], [])
  | c :: cs =>
      if c.isDigit then
        let p := spanDigits cs
        (c :: p.1, p.2)
      else ([], c :: cs)

/-- The optional leading minus sign (`-?`): consumed when present. -/
def stripSign (cs : List Char) : List Char × List Char :=
  match cs with
  | c :: r => if c = '-' then (['-'], r) else ([], cs)
  | [] => ([], cs)

/-- The optional decimal point (`\.?`): consumed when present. -/
def stripDot (cs : List Char) : List Char × List Char :=
  match cs with
  | c :: r => if c = '.' then (['.'], r) else ([], cs)
  | [] => ([], cs)

/-- Match `-?\d+\.?\d*` at the head of `cs`, returning the captured group
and the remainder.  Backtracking over `-?` and `\.?` cannot help (a digit
is neither `-` nor `.` nor `,`), so the greedy reading is the regex's. -/
def matchNum (cs : List Char) : Option (List Char × List Char) :=
  let sign := stripSign cs
  let ds := spanDigits sign.2
  if ds.1.isEmpty then none
  else
    let dot := stripDot ds.2
    let fs := spanDigits dot.2
    some (sign.1 ++ ds.1 ++ dot.1 ++ fs.1, fs.2)

/-- Match the full pattern `\((-?\d+\.?\d*),(-?\d+\.?\d*)\)` anchored at the
head of `cs`, returning the two captured groups. -/
def matchAt (cs : List Char) : Option (List Char × List Char) :=
  match cs with
  | [] => none
  | c :: r =>
      if c = '(' then
        match matchNum r with
        | none => none
        | some (g1, r1) =>
            match r1 with
            | [] => none
            | c1 :: r2 =>
                if c1 = ',' then
                  match matchNum r2 with
                  | none => none
                  | some (g2, r3) =>
                      match r3 with
                      | [] => none
                      | c2 :: _ => if c2 = ')' then some (g1, g2) else none
                else none
      else none

/-- `point.match(regex)`: the leftmost match of the point pattern, scanning
start positions left to right. -/
def matchPoint : List Char → Option (List Char × List Char)
  | [] => none
  | c :: cs =>
      match matchAt (c :: cs) with
      | some g => some g
      | none => matchPoint cs

/-- `parseFloat` on a string of the captured-group shape `-?\d+\.?\d*`. -/
def parseFloatLit (g : List Char) : ℚ :=
  let sign := stripSign g
  let ds := spanDigits sign.2
  let dot := stripDot ds.2
  let fs : List Char := if dot.1.isEmpty then [] else (spanDigits dot.2).1
  let mag : ℚ := (digitsVal ds.1 : ℚ) + (digitsVal fs : ℚ) / 10 ^ fs.length
  if sign.1.isEmpty then mag else -mag

/-- `parsePostgresPoint(point)` from `geocoding.ts`: on a regex match,
group 1 is the longitude and group 2 the latitude; otherwise the function
throws internally, catches its own throw, and returns
`SRI_LANKA_CENTER`. -/
def parsePostgresPoint (point : String) : Coordinates :=
  match matchPoint point.data with
  | some (g1, g2) => { lng := parseFloatLit g1, lat := parseFloatLit g2 }
  | none => SRI_LANKA_CENTER

/-- A coordinate pair given by the decimal serializations of its two JS
numbers (the template literal renders each number in this plain form for
the range the claim covers). -/
structure DecCoords where
  lat : Dec
  lng : Dec
deriving DecidableEq, Repr

/-- `toPostgresPoint(coords)`: the template literal
`( lng , lat )` over the numbers' decimal serializations. -/
def toPostgresPoint (c : DecCoords) : String :=
  String.mk ('(' :: c.lng.render ++ ',' :: c.lat.render ++ [')'])

/-! ### Generic lemmas about `updateWhere` and `filter` -/

theorem updateWhere_filter_nil {α : Type} {p : α → Bool} (g : α → α) :
    ∀ l : List α, l.filter p = [] → updateWhere p g l = l := by
  intro l
  induction l with
  | nil => intro _; rfl
  | cons a t ih =>
      intro h
      rw [List.filter_cons] at h
      by_cases hpa : p a
      · simp [hpa] at h
      · rw [if_neg hpa] at h
        simp only [updateWhere, List.map_cons, if_neg hpa]
        have ht := ih h
        simp only [updateWhere] at ht
        rw [ht]

theorem filter_updateWhere_nil {α : Type} {p : α → Bool} (g : α → α)
    (l : List α) (h : l.filter p = []) : (updateWhere p g l).filter p = [] := by
  rw [updateWhere_filter_nil g l h, h]

theorem filter_updateWhere_single {α : Type} {p : α → Bool} (g : α → α) :
    ∀ (l : List α) (o : α), l.filter p = [o] → (∀ a, p (g a) = p a) →
      (updateWhere p g l).filter p = [g o] := by
  intro l
  induction l with
  | nil => intro o h _; simp at h
  | cons a t ih =>
      intro o h hg
      rw [List.filter_cons] at h
      by_cases hpa : p a
      · rw [if_pos hpa] at h
        rw [List.cons_eq_cons] at h
        obtain ⟨rfl, ht⟩ := h
        simp only [updateWhere, List.map_cons, if_pos hpa, List.filter_cons,
          hg a, if_pos hpa]
        have hn := filter_updateWhere_nil g t ht
        simp only [updateWhere] at hn
        rw [hn]
      · rw [if_neg hpa] at h
        simp only [updateWhere, List.map_cons, if_neg hpa, List.filter_cons,
          if_neg hpa]
        exact ih o h hg

/-! ### Characterization lemmas for the service calls on a store with
unique row ids -/

theorem takeOrder_spec (db : DB) (oid uid vid : Int) (t : Time)
    (o : Order) (c : Container) (cid : String)
    (hoid : 0 < oid) (huid : 0 < uid) (hvid : 0 < vid) (hcid : cid ≠ "")
    (ho : db.orders.filter (fun r => r.id == oid) = [o])
    (hco : o.container_id = some cid)
    (hc : db.containers.filter (fun x => x.id == cid) = [c]) :
    takeOrder db oid uid vid t =
      (.ok (takeOrderOrderUpdate uid vid t o),
        { orders := updateWhere (fun r => r.id == oid)
            (takeOrderOrderUpdate uid vid t) db.orders,
          containers := updateWhere (fun x => x.id == cid)
            (assignContainerUpdate uid vid t) db.containers }) := by
  have h1 : ¬ oid ≤ 0 := not_le.mpr hoid
  have h2 : ¬ uid ≤ 0 := not_le.mpr huid
  have h3 : ¬ vid ≤ 0 := not_le.mpr hvid
  simp only [takeOrder, takeOrderPre, takeOrderCheckIds, if_neg h1, if_neg h2,
    if_neg h3, fetchContainerId, getOrderRow, ho, hco, takeOrderWrites,
    updateOrderRow, assignContainer, if_neg hcid, updateContainerRow, hc]

theorem completeOrder_spec (db : DB) (oid : Int) (t : Time)
    (o : Order) (c : Container) (cid : String)
    (hoid : 0 < oid) (hcid : cid ≠ "")
    (ho : db.orders.filter (fun r => r.id == oid) = [o])
    (hco : o.container_id = some cid)
    (hc : db.containers.filter (fun x => x.id == cid) = [c]) :
    completeOrder db oid t =
      (.ok (completeOrderOrderUpdate t o),
        { orders := updateWhere (fun r => r.id == oid)
            (completeOrderOrderUpdate t) db.orders,
          containers := updateWhere (fun x => x.id == cid)
            (unassignContainerUpdate oid t) db.containers }) := by
  have h1 : ¬ oid ≤ 0 := not_le.mpr hoid
  simp only [completeOrder, if_neg h1, fetchContainerId, getOrderRow, ho, hco,
    updateOrderRow, unassignContainer, if_neg hcid, updateContainerRow, hc]

/-! ### Concrete fixtures used by counterexamples and witnesses -/

/-- A pending order 1 whose container is `"c1"`. -/
def order0 : Order :=
  { id := 1, status := .pending, container_id := some "c1", vehicle_id := none,
    transporter_id := none, assigned_at := none, delivery_time := none,
    updated_at := 0 }

/-- An unassigned, inactive container `"c1"`. -/
def cont0 : Container :=
  { id := "c1", name := "A", status := .inactive, assigned_to := none,
    vehicle_id := none, complete_order := none, current_lat := none,
    current_lng := none, latitude := none, longitude := none, location := none,
    temperature := none, humidity := none, battery_level := none,
    created_at := 0, updated_at := 0, last_updated := 0 }

/-! ### C1 — atomicity of the Order and Container writes -/

/-- C1 counterexample: with order 1 pending (container "c1") but no
container row "c1" in the store, `takeOrder(1, 2, 3)` throws on the
container update — yet the already-committed order write stands: the call
reports an error while the order row is left `confirmed`/assigned and no
container row was written.  This execution leaves the order updated while
the container is not, so the two writes are not one atomic unit and nothing
is rolled back. -/
theorem takeOrder_not_atomic_cex :
    (takeOrder { orders := [order0], containers := [] } 1 2 3 5).1 =
        .error .containerUpdate ∧
      (takeOrder { orders := [order0], containers := [] } 1 2 3 5).2.orders =
        [{ order0 with status := .confirmed, vehicle_id := some 3,
                       transporter_id := some 2, assigned_at := some 5,
                       updated_at := 5 }] ∧
      (takeOrder { orders := [order0], containers := [] } 1 2 3 5).2.containers
        = [] := by
  exact ⟨rfl, rfl, rfl⟩

/-- C1 (amended): `takeOrder` and `completeOrder` perform the Order-row
write and the Container-row write as two separate sequential store calls
with no transaction: whenever the container write fails after the order
write succeeded (here: the referenced container row does not exist), the
call reports an error but the order update persists — the order is left
updated (`confirmed` resp. `completed`) while the container is untouched,
and nothing is rolled back. -/
theorem takeOrder_completeOrder_no_rollback :
    (∀ (db : DB) (oid uid vid : Int) (t : Time) (o : Order) (cid : String),
        0 < oid → 0 < uid → 0 < vid → cid ≠ "" →
        db.orders.filter (fun r => r.id == oid) = [o] →
        o.container_id = some cid →
        db.containers.filter (fun x => x.id == cid) = [] →
        (takeOrder db oid uid vid t).1 = .error .containerUpdate ∧
          (takeOrder db oid uid vid t).2.orders.filter (fun r => r.id == oid)
            = [takeOrderOrderUpdate uid vid t o] ∧
          (takeOrder db oid uid vid t).2.containers = db.containers) ∧
    (∀ (db : DB) (oid : Int) (t : Time) (o : Order) (cid : String),
        0 < oid → cid ≠ "" →
        db.orders.filter (fun r => r.id == oid) = [o] →
        o.container_id = some cid →
        db.containers.filter (fun x => x.id == cid) = [] →
        (completeOrder db oid t).1 = .error .containerUpdate ∧
          (completeOrder db oid t).2.orders.filter (fun r => r.id == oid)
            = [completeOrderOrderUpdate t o] ∧
          (completeOrder db oid t).2.containers = db.containers) := by
  constructor
  · intro db oid uid vid t o cid hoid huid hvid hcid ho hco hc
    have h1 : ¬ oid ≤ 0 := not_le.mpr hoid
    have h2 : ¬ uid ≤ 0 := not_le.mpr huid
    have h3 : ¬ vid ≤ 0 := not_le.mpr hvid
    have hrun : takeOrder db oid uid vid t =
        (.error .containerUpdate,
          { orders := updateWhere (fun r => r.id == oid)
              (takeOrderOrderUpdate uid vid t) db.orders,
            containers := updateWhere (fun x => x.id == cid)
              (assignContainerUpdate uid vid t) db.containers }) := by
      simp only [takeOrder, takeOrderPre, takeOrderCheckIds, if_neg h1,
        if_neg h2, if_neg h3, fetchContainerId, getOrderRow, ho, hco,
        takeOrderWrites, updateOrderRow, assignContainer, if_neg hcid,
        updateContainerRow, hc]
    refine ⟨by rw [hrun], ?_, ?_⟩
    · rw [hrun]
      exact filter_updateWhere_single (takeOrderOrderUpdate uid vid t)
        db.orders o ho (fun a => rfl)
    · rw [hrun]
      exact updateWhere_filter_nil _ db.containers hc
  · intro db oid t o cid hoid hcid ho hco hc
    have h1 : ¬ oid ≤ 0 := not_le.mpr hoid
    have hrun : completeOrder db oid t =
        (.error .containerUpdate,
          { orders := updateWhere (fun r => r.id == oid)
              (completeOrderOrderUpdate t) db.orders,
            containers := updateWhere (fun x => x.id == cid)
              (unassignContainerUpdate oid t) db.containers }) := by
      simp only [completeOrder, if_neg h1, fetchContainerId, getOrderRow, ho,
        hco, updateOrderRow, unassignContainer, if_neg hcid,
        updateContainerRow, hc]
    refine ⟨by rw [hrun], ?_, ?_⟩
    · rw [hrun]
      exact filter_updateWhere_single (completeOrderOrderUpdate t)
        db.orders o ho (fun a => rfl)
    · rw [hrun]
      exact updateWhere_filter_nil _ db.containers hc

/-- Closed instance of the amended C1 theorem at the fixtures: both halves
applied at order 1 / container "c1" with no container row present. -/
theorem takeOrder_completeOrder_no_rollback_witness :
    ((takeOrder { orders := [order0], containers := [] } 1 2 3 5).1 =
        .error .containerUpdate ∧
      (takeOrder { orders := [order0], containers := [] } 1 2 3 5).2.orders.filter
          (fun r => r.id == (1 : Int)) = [takeOrderOrderUpdate 2 3 5 order0] ∧
      (takeOrder { orders := [order0], containers := [] } 1 2 3 5).2.containers
        = (DB.mk [order0] []).containers) ∧
    ((completeOrder { orders := [order0], containers := [] } 1 7).1 =
        .error .containerUpdate ∧
      (completeOrder { orders := [order0], containers := [] } 1 7).2.orders.filter
          (fun r => r.id == (1 : Int)) = [completeOrderOrderUpdate 7 order0] ∧
      (completeOrder { orders := [order0], containers := [] } 1 7).2.containers
        = (DB.mk [order0] []).containers) :=
  ⟨takeOrder_completeOrder_no_rollback.1 (DB.mk [order0] []) 1 2 3 5 order0 "c1"
      (by decide) (by decide) (by decide) (by decide) (by decide) (by decide)
      (by decide),
    takeOrder_completeOrder_no_rollback.2 (DB.mk [order0] []) 1 7 order0 "c1"
      (by decide) (by decide) (by decide) (by decide) (by decide)⟩

/-! ### C2 — takeOrder's preconditions -/

/-- C2 counterexample: order 1 is `cancelled` (not `pending`) and its
container "c1" is already assigned to user 55 — yet `takeOrder(1, 2, 3)`
succeeds, flips the order to `confirmed` and overwrites the container's
assignment, instead of failing with InvalidState and leaving state
untouched. -/
theorem takeOrder_not_pending_succeeds_cex :
    ((takeOrder
        { orders := [{ order0 with status := .cancelled }],
          containers := [{ cont0 with
            assigned_to := some 55, vehicle_id := some 7,
            status := .active }] }
        1 2 3 5).1).isOk = true ∧
      (takeOrder
        { orders := [{ order0 with status := .cancelled }],
          containers := [{ cont0 with
            assigned_to := some 55, vehicle_id := some 7,
            status := .active }] }
        1 2 3 5).2.orders =
        [{ order0 with status := .confirmed, vehicle_id := some 3,
                       transporter_id := some 2, assigned_at := some 5,
                       updated_at := 5 }] ∧
      (takeOrder
        { orders := [{ order0 with status := .cancelled }],
          containers := [{ cont0 with
            assigned_to := some 55, vehicle_id := some 7,
            status := .active }] }
        1 2 3 5).2.containers =
        [{ cont0 with assigned_to := some 2, vehicle_id := some 3,
                      status := .active, updated_at := 5, last_updated := 5 }] := by
  exact ⟨rfl, rfl, rfl⟩

/-- C2 (amended): `takeOrder` never reads the order's status or the
container's `assigned_to`: for every order with positive ids, an existing
order row carrying a container reference, and an existing container row —
whatever the order's current status and whatever the container's current
assignment — the call succeeds, sets the order `confirmed`/assigned and
overwrites the container's assignment.  No InvalidState failure exists in
the code. -/
theorem takeOrder_ignores_status :
    ∀ (db : DB) (oid uid vid : Int) (t : Time) (o : Order) (c : Container)
      (cid : String),
      0 < oid → 0 < uid → 0 < vid → cid ≠ "" →
      db.orders.filter (fun r => r.id == oid) = [o] →
      o.container_id = some cid →
      db.containers.filter (fun x => x.id == cid) = [c] →
      (takeOrder db oid uid vid t).1 = .ok (takeOrderOrderUpdate uid vid t o) ∧
        (takeOrder db oid uid vid t).2.orders.filter (fun r => r.id == oid)
          = [takeOrderOrderUpdate uid vid t o] ∧
        (takeOrder db oid uid vid t).2.containers.filter (fun x => x.id == cid)
          = [assignContainerUpdate uid vid t c] := by
  intro db oid uid vid t o c cid hoid huid hvid hcid ho hco hc
  have hrun := takeOrder_spec db oid uid vid t o c cid hoid huid hvid hcid ho hco hc
  refine ⟨by rw [hrun], ?_, ?_⟩
  · rw [hrun]
    exact filter_updateWhere_single (takeOrderOrderUpdate uid vid t)
      db.orders o ho (fun a => rfl)
  · rw [hrun]
    exact filter_updateWhere_single (assignContainerUpdate uid vid t)
      db.containers c hc (fun a => rfl)

/-- Closed instance of the amended C2 theorem: a cancelled order whose
container is assigned to user 55 is nevertheless taken by user 2. -/
theorem takeOrder_ignores_status_witness :
    (takeOrder
        (DB.mk [{ order0 with status := .cancelled }]
          [{ cont0 with
            assigned_to := some 55, vehicle_id := some 7,
            status := .active }]) 1 2 3 5).1 =
      .ok (takeOrderOrderUpdate 2 3 5 { order0 with status := .cancelled }) ∧
    (takeOrder
        (DB.mk [{ order0 with status := .cancelled }]
          [{ cont0 with
            assigned_to := some 55, vehicle_id := some 7,
            status := .active }]) 1 2 3 5).2.orders.filter
        (fun r => r.id == (1 : Int)) =
      [takeOrderOrderUpdate 2 3 5 { order0 with status := .cancelled }] ∧
    (takeOrder
        (DB.mk [{ order0 with status := .cancelled }]
          [{ cont0 with
            assigned_to := some 55, vehicle_id := some 7,
            status := .active }]) 1 2 3 5).2.containers.filter
        (fun x => x.id == "c1") =
      [assignContainerUpdate 2 3 5
        { cont0 with
          assigned_to := some 55, vehicle_id := some 7,
          status := .active }] :=
  takeOrder_ignores_status
    (DB.mk [{ order0 with status := .cancelled }]
      [{ cont0 with
        assigned_to := some 55, vehicle_id := some 7,
        status := .active }]) 1 2 3 5
    { order0 with status := .cancelled }
    { cont0 with
      assigned_to := some 55, vehicle_id := some 7,
      status := .active } "c1"
    (by decide) (by decide) (by decide) (by decide) (by decide) (by decide)
    (by decide)

/-! ### C3 — two racing takeOrder calls -/

/-- C3 counterexample: order 1 is pending and container "c1" unassigned;
two takeOrder calls race for it (both run their reads before either
writes).  BOTH calls succeed — there is no conflict detection of any kind,
refuting "exactly one succeeds and the other fails with Conflict". -/
theorem takeOrder_race_cex :
    ((takeOrderRace { orders := [order0], containers := [cont0] }
        1 10 100 20 200 5 6).resultA).isOk = true ∧
      ((takeOrderRace { orders := [order0], containers := [cont0] }
        1 10 100 20 200 5 6).resultB).isOk = true := by
  exact ⟨rfl, rfl⟩

/-- C3 (amended): when two `takeOrder` calls race for the same pending
order (and its currently-unassigned container), both succeed — the later
writer silently overwrites the earlier assignment and no Conflict error is
ever produced (the error type has no such case and no version check or
lock exists in the code). -/
theorem takeOrder_race_both_succeed :
    ∀ (db : DB) (oid uA vA uB vB : Int) (tA tB : Time) (o : Order)
      (c : Container) (cid : String),
      0 < oid → 0 < uA → 0 < vA → 0 < uB → 0 < vB → cid ≠ "" →
      o.status = .pending → c.assigned_to = none →
      db.orders.filter (fun r => r.id == oid) = [o] →
      o.container_id = some cid →
      db.containers.filter (fun x => x.id == cid) = [c] →
      ((takeOrderRace db oid uA vA uB vB tA tB).resultA).isOk = true ∧
        ((takeOrderRace db oid uA vA uB vB tA tB).resultB).isOk = true ∧
        (takeOrderRace db oid uA vA uB vB tA tB).final.containers.filter
            (fun x => x.id == cid)
          = [assignContainerUpdate uB vB tB c] := by
  intro db oid uA vA uB vB tA tB o c cid hoid huA hvA huB hvB hcid hst hun ho hco hc
  have h1 : ¬ oid ≤ 0 := not_le.mpr hoid
  have h2 : ¬ uA ≤ 0 := not_le.mpr huA
  have h3 : ¬ vA ≤ 0 := not_le.mpr hvA
  have h4 : ¬ uB ≤ 0 := not_le.mpr huB
  have h5 : ¬ vB ≤ 0 := not_le.mpr hvB
  have hpreA : takeOrderPre db oid uA vA = .ok cid := by
    simp only [takeOrderPre, takeOrderCheckIds, if_neg h1, if_neg h2, if_neg h3,
      fetchContainerId, getOrderRow, ho, hco]
  have hpreB : takeOrderPre db oid uB vB = .ok cid := by
    simp only [takeOrderPre, takeOrderCheckIds, if_neg h1, if_neg h4, if_neg h5,
      fetchContainerId, getOrderRow, ho, hco]
  have hwA : takeOrderWrites db (takeOrderPre db oid uA vA) oid uA vA tA =
      (.ok (takeOrderOrderUpdate uA vA tA o),
        { orders := updateWhere (fun r => r.id == oid)
            (takeOrderOrderUpdate uA vA tA) db.orders,
          containers := updateWhere (fun x => x.id == cid)
            (assignContainerUpdate uA vA tA) db.containers }) := by
    rw [hpreA]
    simp only [takeOrderWrites, updateOrderRow, ho, assignContainer,
      if_neg hcid, if_neg h2, if_neg h3, updateContainerRow, hc]
  have hoA : (updateWhere (fun r => r.id == oid)
      (takeOrderOrderUpdate uA vA tA) db.orders).filter (fun r => r.id == oid)
      = [takeOrderOrderUpdate uA vA tA o] :=
    filter_updateWhere_single (takeOrderOrderUpdate uA vA tA)
      db.orders o ho (fun a => rfl)
  have hcA : (updateWhere (fun x => x.id == cid)
      (assignContainerUpdate uA vA tA) db.containers).filter
        (fun x => x.id == cid) = [assignContainerUpdate uA vA tA c] :=
    filter_updateWhere_single (assignContainerUpdate uA vA tA)
      db.containers c hc (fun a => rfl)
  have hwB : takeOrderWrites
      { orders := updateWhere (fun r => r.id == oid)
          (takeOrderOrderUpdate uA vA tA) db.orders,
        containers := updateWhere (fun x => x.id == cid)
          (assignContainerUpdate uA vA tA) db.containers }
      (takeOrderPre db oid uB vB) oid uB vB tB =
      (.ok (takeOrderOrderUpdate uB vB tB (takeOrderOrderUpdate uA vA tA o)),
        { orders := updateWhere (fun r => r.id == oid)
            (takeOrderOrderUpdate uB vB tB)
            (updateWhere (fun r => r.id == oid)
              (takeOrderOrderUpdate uA vA tA) db.orders),
          containers := updateWhere (fun x => x.id == cid)
            (assignContainerUpdate uB vB tB)
            (updateWhere (fun x => x.id == cid)
              (assignContainerUpdate uA vA tA) db.containers) }) := by
    rw [hpreB]
    simp only [takeOrderWrites, updateOrderRow, hoA, assignContainer,
      if_neg hcid, if_neg h4, if_neg h5, updateContainerRow, hcA]
  refine ⟨?_, ?_, ?_⟩
  · simp only [takeOrderRace, hwA]
    rfl
  · simp only [takeOrderRace, hwA, hwB]
    rfl
  · simp only [takeOrderRace, hwA, hwB]
    have := filter_updateWhere_single (assignContainerUpdate uB vB tB)
      (updateWhere (fun x => x.id == cid) (assignContainerUpdate uA vA tA)
        db.containers)
      (assignContainerUpdate uA vA tA c) hcA (fun a => rfl)
    rw [this]
    rfl

/-- Closed instance of the amended C3 theorem at the fixtures: operators 10
and 20 race for pending order 1 / unassigned container "c1"; both succeed
and the container ends assigned to the later writer 20. -/
theorem takeOrder_race_both_succeed_witness :
    ((takeOrderRace (DB.mk [order0] [cont0]) 1 10 100 20 200 5 6).resultA).isOk
        = true ∧
      ((takeOrderRace (DB.mk [order0] [cont0]) 1 10 100 20 200 5 6).resultB).isOk
        = true ∧
      (takeOrderRace (DB.mk [order0] [cont0])
          1 10 100 20 200 5 6).final.containers.filter (fun x => x.id == "c1")
        = [assignContainerUpdate 20 200 6 cont0] :=
  takeOrder_race_both_succeed (DB.mk [order0] [cont0]) 1 10 100 20 200 5 6
    order0 cont0 "c1" (by decide) (by decide) (by decide) (by decide)
    (by decide) (by decide) (by decide) (by decide) (by decide) (by decide)
    (by decide)

/-! ### C4 — coordinate validation in ReportLocation -/

/-- C4 counterexample: `updateContainerLocation("c1", 91, 80)` — latitude 91
is outside [-90, 90] — succeeds anyway: it writes
`current_lat = 91`/`current_lng = 80`/`last_updated` and broadcasts a
location event, instead of failing with InvalidInput and leaving the
container unchanged with no event. -/
theorem reportLocation_lat91_succeeds_cex :
    ((updateContainerLocation { orders := [], containers := [cont0] }
        "c1" 91 80 3).1).isOk = true ∧
      (updateContainerLocation { orders := [], containers := [cont0] }
        "c1" 91 80 3).2.1.containers =
        [{ cont0 with current_lat := some 91, current_lng := some 80,
                      last_updated := 3 }] ∧
      (updateContainerLocation { orders := [], containers := [cont0] }
        "c1" 91 80 3).2.2 =
        [{ container_id := "c1", latitude := 91, longitude := 80,
           timestamp := 3 }] := by
  exact ⟨rfl, rfl, rfl⟩

/-- C4 (amended): `updateContainerLocation` performs no range check at all:
for EVERY latitude/longitude pair (in range or not, including lat = 91),
when the container row exists the call succeeds, writes exactly the given
coordinates plus `last_updated`, and emits one LocationUpdated event; it
fails only when the row lookup itself fails (no or duplicate row), in which
case the container table is unchanged and no event is emitted. -/
theorem updateContainerLocation_unvalidated :
    (∀ (db : DB) (cid : String) (lat lng : ℚ) (t : Time) (c : Container),
        db.containers.filter (fun x => x.id == cid) = [c] →
        (updateContainerLocation db cid lat lng t).1 =
            .ok { c with current_lat := some lat, current_lng := some lng,
                         last_updated := t } ∧
          (updateContainerLocation db cid lat lng t).2.1.containers.filter
              (fun x => x.id == cid) =
            [{ c with current_lat := some lat, current_lng := some lng,
                      last_updated := t }] ∧
          (updateContainerLocation db cid lat lng t).2.2 =
            [{ container_id := cid, latitude := lat, longitude := lng,
               timestamp := t }]) ∧
    (∀ (db : DB) (cid : String) (lat lng : ℚ) (t : Time),
        db.containers.filter (fun x => x.id == cid) = [] →
        (updateContainerLocation db cid lat lng t).1 =
            .error .containerUpdate ∧
          (updateContainerLocation db cid lat lng t).2.1.containers =
            db.containers ∧
          (updateContainerLocation db cid lat lng t).2.2 = []) := by
  constructor
  · intro db cid lat lng t c hc
    have hrun : updateContainerLocation db cid lat lng t =
        (.ok { c with current_lat := some lat, current_lng := some lng,
                      last_updated := t },
          { db with
            containers := updateWhere (fun x => x.id == cid)
              (fun x => { x with current_lat := some lat,
                                 current_lng := some lng,
                                 last_updated := t }) db.containers },
          [{ container_id := cid, latitude := lat, longitude := lng,
             timestamp := t }]) := by
      simp only [updateContainerLocation, updateContainerRow, hc]
    refine ⟨by rw [hrun], ?_, by rw [hrun]⟩
    rw [hrun]
    exact filter_updateWhere_single
      (fun x => { x with current_lat := some lat, current_lng := some lng,
                         last_updated := t })
      db.containers c hc (fun a => rfl)
  · intro db cid lat lng t hc
    have hrun : updateContainerLocation db cid lat lng t =
        (.error .containerUpdate,
          { db with
            containers := updateWhere (fun x => x.id == cid)
              (fun x => { x with current_lat := some lat,
                                 current_lng := some lng,
                                 last_updated := t }) db.containers },
          []) := by
      simp only [updateContainerLocation, updateContainerRow, hc]
    refine ⟨by rw [hrun], ?_, by rw [hrun]⟩
    rw [hrun]
    exact updateWhere_filter_nil _ db.containers hc

/-- Closed instance of the amended C4 theorem at latitude 91 (out of
range): the update is applied and the event emitted regardless. -/
theorem updateContainerLocation_unvalidated_witness :
    (updateContainerLocation (DB.mk [] [cont0]) "c1" 91 80 3).1 =
        .ok { cont0 with current_lat := some 91, current_lng := some 80,
                         last_updated := 3 } ∧
      (updateContainerLocation (DB.mk [] [cont0])
          "c1" 91 80 3).2.1.containers.filter (fun x => x.id == "c1") =
        [{ cont0 with current_lat := some 91, current_lng := some 80,
                      last_updated := 3 }] ∧
      (updateContainerLocation (DB.mk [] [cont0]) "c1" 91 80 3).2.2 =
        [{ container_id := "c1", latitude := 91, longitude := 80,
           timestamp := 3 }] :=
  updateContainerLocation_unvalidated.1 (DB.mk [] [cont0]) "c1" 91 80 3 cont0
    (by decide)

/-! ### C5 — completeOrder's stale-state guard -/

/-- C5 counterexample: order 1 is ALREADY `completed` and its container
"c1" is assigned to user 99 while the order's transporter is 2 — a state
the claim says must be refused with InvalidState.  `completeOrder(1)`
succeeds anyway and silently unassigns the container. -/
theorem completeOrder_no_guard_cex :
    ((completeOrder
        (DB.mk [{ order0 with status := .completed, transporter_id := some 2 }]
          [{ cont0 with
            assigned_to := some 99, vehicle_id := some 4,
            status := .active }]) 1 4).1).isOk = true ∧
      (completeOrder
        (DB.mk [{ order0 with status := .completed, transporter_id := some 2 }]
          [{ cont0 with
            assigned_to := some 99, vehicle_id := some 4,
            status := .active }]) 1 4).2.containers =
        [{ cont0 with complete_order := some 1, updated_at := 4,
                      last_updated := 4 }] := by
  exact ⟨rfl, rfl⟩

/-- C5 (amended): `completeOrder` never reads the order's status, the
container's `assigned_to` or the order's `transporter_id`: for every
existing order with a container reference and existing container row —
including orders already completed or cancelled and containers assigned to
someone else — the call succeeds, marks the order `completed` and
unconditionally unassigns the container, overwriting whatever assignment
was there.  No InvalidState failure exists for these states. -/
theorem completeOrder_unconditional :
    ∀ (db : DB) (oid : Int) (t : Time) (o : Order) (c : Container)
      (cid : String),
      0 < oid → cid ≠ "" →
      db.orders.filter (fun r => r.id == oid) = [o] →
      o.container_id = some cid →
      db.containers.filter (fun x => x.id == cid) = [c] →
      (completeOrder db oid t).1 = .ok (completeOrderOrderUpdate t o) ∧
        (completeOrder db oid t).2.orders.filter (fun r => r.id == oid)
          = [completeOrderOrderUpdate t o] ∧
        (completeOrder db oid t).2.containers.filter (fun x => x.id == cid)
          = [unassignContainerUpdate oid t c] := by
  intro db oid t o c cid hoid hcid ho hco hc
  have hrun := completeOrder_spec db oid t o c cid hoid hcid ho hco hc
  refine ⟨by rw [hrun], ?_, ?_⟩
  · rw [hrun]
    exact filter_updateWhere_single (completeOrderOrderUpdate t)
      db.orders o ho (fun a => rfl)
  · rw [hrun]
    exact filter_updateWhere_single (unassignContainerUpdate oid t)
      db.containers c hc (fun a => rfl)

/-- Closed instance of the amended C5 theorem: an already-completed order
whose container is assigned to user 99 (not its transporter 2) is
"completed" again and the container silently unassigned. -/
theorem completeOrder_unconditional_witness :
    (completeOrder
        (DB.mk [{ order0 with status := .completed, transporter_id := some 2 }]
          [{ cont0 with
            assigned_to := some 99, vehicle_id := some 4,
            status := .active }]) 1 4).1 =
      .ok (completeOrderOrderUpdate 4
        { order0 with status := .completed, transporter_id := some 2 }) ∧
      (completeOrder
          (DB.mk [{ order0 with status := .completed, transporter_id := some 2 }]
            [{ cont0 with
              assigned_to := some 99, vehicle_id := some 4,
              status := .active }]) 1 4).2.orders.filter
          (fun r => r.id == (1 : Int)) =
        [completeOrderOrderUpdate 4
          { order0 with status := .completed, transporter_id := some 2 }] ∧
      (completeOrder
          (DB.mk [{ order0 with status := .completed, transporter_id := some 2 }]
            [{ cont0 with
              assigned_to := some 99, vehicle_id := some 4,
              status := .active }]) 1 4).2.containers.filter
          (fun x => x.id == "c1") =
        [unassignContainerUpdate 1 4
          { cont0 with
            assigned_to := some 99, vehicle_id := some 4,
            status := .active }] :=
  completeOrder_unconditional
    (DB.mk [{ order0 with status := .completed, transporter_id := some 2 }]
      [{ cont0 with
        assigned_to := some 99, vehicle_id := some 4,
        status := .active }]) 1 4
    { order0 with status := .completed, transporter_id := some 2 }
    { cont0 with
      assigned_to := some 99, vehicle_id := some 4,
      status := .active } "c1"
    (by decide) (by decide) (by decide) (by decide) (by decide)

/-! ### C6 — TakeOrder then CompleteOrder round-trip -/

/-- C6: for every order with a container, a successful `takeOrder` followed
by a successful `completeOrder` returns the container to
`assigned_to = null, vehicle_id = null, status = inactive,
complete_order = orderId` (with only the timestamps advanced), exactly as
the round-trip property states. -/
theorem take_then_complete_roundtrip :
    ∀ (db : DB) (oid uid vid : Int) (t1 t2 : Time) (o : Order)
      (c : Container) (cid : String),
      0 < oid → 0 < uid → 0 < vid → cid ≠ "" →
      db.orders.filter (fun r => r.id == oid) = [o] →
      o.container_id = some cid →
      db.containers.filter (fun x => x.id == cid) = [c] →
      ((takeOrder db oid uid vid t1).1).isOk = true ∧
        ((completeOrder (takeOrder db oid uid vid t1).2 oid t2).1).isOk
          = true ∧
        (completeOrder (takeOrder db oid uid vid t1).2 oid t2).2.containers.filter
            (fun x => x.id == cid) =
          [{ c with assigned_to := none, vehicle_id := none,
                    complete_order := some oid, status := .inactive,
                    updated_at := t2, last_updated := t2 }] := by
  intro db oid uid vid t1 t2 o c cid hoid huid hvid hcid ho hco hc
  have htake := takeOrder_spec db oid uid vid t1 o c cid hoid huid hvid hcid
    ho hco hc
  have ho1 : (updateWhere (fun r => r.id == oid)
      (takeOrderOrderUpdate uid vid t1) db.orders).filter
        (fun r => r.id == oid) = [takeOrderOrderUpdate uid vid t1 o] :=
    filter_updateWhere_single (takeOrderOrderUpdate uid vid t1)
      db.orders o ho (fun a => rfl)
  have hc1 : (updateWhere (fun x => x.id == cid)
      (assignContainerUpdate uid vid t1) db.containers).filter
        (fun x => x.id == cid) = [assignContainerUpdate uid vid t1 c] :=
    filter_updateWhere_single (assignContainerUpdate uid vid t1)
      db.containers c hc (fun a => rfl)
  have hcomp := completeOrder_spec
    { orders := updateWhere (fun r => r.id == oid)
        (takeOrderOrderUpdate uid vid t1) db.orders,
      containers := updateWhere (fun x => x.id == cid)
        (assignContainerUpdate uid vid t1) db.containers }
    oid t2 (takeOrderOrderUpdate uid vid t1 o)
    (assignContainerUpdate uid vid t1 c) cid hoid hcid ho1 hco hc1
  refine ⟨by rw [htake]; rfl, by rw [htake, hcomp]; rfl, ?_⟩
  rw [htake, hcomp]
  have := filter_updateWhere_single (unassignContainerUpdate oid t2)
    (updateWhere (fun x => x.id == cid) (assignContainerUpdate uid vid t1)
      db.containers)
    (assignContainerUpdate uid vid t1 c) hc1 (fun a => rfl)
  rw [this]
  rfl

/-- Closed instance of the C6 round-trip at the claim's example:
`TakeOrder(7, op = 3, veh = 9)` then `CompleteOrder(7)` leaves container
"c1" with `assigned_to = null, vehicle_id = null, status = inactive,
complete_order = 7`. -/
theorem take_then_complete_roundtrip_witness :
    ((takeOrder (DB.mk [{ order0 with id := 7 }] [cont0]) 7 3 9 1).1).isOk
        = true ∧
      ((completeOrder (takeOrder (DB.mk [{ order0 with id := 7 }] [cont0])
          7 3 9 1).2 7 2).1).isOk = true ∧
      (completeOrder (takeOrder (DB.mk [{ order0 with id := 7 }] [cont0])
          7 3 9 1).2 7 2).2.containers.filter (fun x => x.id == "c1") =
        [{ cont0 with assigned_to := none, vehicle_id := none,
                      complete_order := some 7, status := .inactive,
                      updated_at := 2, last_updated := 2 }] :=
  take_then_complete_roundtrip (DB.mk [{ order0 with id := 7 }] [cont0])
    7 3 9 1 2 { order0 with id := 7 } cont0 "c1"
    (by decide) (by decide) (by decide) (by decide) (by decide) (by decide)
    (by decide)

/-! ### C7 — AdvanceStatus transition validation -/

/-- C7 counterexample: order 1 is terminal (`completed`), yet
`updateOrderStatus(1, 'pending')` — a backward transition out of a terminal
state — succeeds and rewrites the status, refuting "rejects any new status
when the order is terminal or the requested status is not strictly
later". -/
theorem updateOrderStatus_backward_cex :
    ((updateOrderStatus (DB.mk [{ order0 with status := .completed }] [cont0])
        1 .pending none 9).1).isOk = true ∧
      (updateOrderStatus (DB.mk [{ order0 with status := .completed }] [cont0])
        1 .pending none 9).2.orders =
        [{ order0 with status := .pending, updated_at := 9 }] ∧
      (updateOrderStatus (DB.mk [{ order0 with status := .completed }] [cont0])
        1 .pending none 9).2.containers = [cont0] := by
  exact ⟨rfl, rfl, rfl⟩

/-- Identity of the order id under `updateOrderStatus`'s payload. -/
theorem updateOrderStatusUpdate_id (st : OrderStatus) (v : Option Int)
    (t : Time) (a : Order) : (updateOrderStatusUpdate st v t a).id = a.id := by
  simp only [updateOrderStatusUpdate]
  split <;> split <;> rfl

/-- Status written by `updateOrderStatus`'s payload is always the requested
one. -/
theorem updateOrderStatusUpdate_status (st : OrderStatus) (v : Option Int)
    (t : Time) (a : Order) :
    (updateOrderStatusUpdate st v t a).status = st := by
  simp only [updateOrderStatusUpdate]
  split <;> split <;> rfl

/-- C7 (amended): `updateOrderStatus` performs NO transition validation:
for every existing order and every requested status — forward, backward,
or out of a terminal state — the call succeeds and writes exactly the
requested status; and (as the claim says for the intermediate transitions)
it leaves every container row completely unchanged. -/
theorem updateOrderStatus_no_validation :
    ∀ (db : DB) (oid : Int) (st : OrderStatus) (v : Option Int) (t : Time)
      (o : Order),
      db.orders.filter (fun r => r.id == oid) = [o] →
      (updateOrderStatus db oid st v t).1 =
          .ok (updateOrderStatusUpdate st v t o) ∧
        (updateOrderStatusUpdate st v t o).status = st ∧
        (updateOrderStatus db oid st v t).2.orders.filter
            (fun r => r.id == oid) = [updateOrderStatusUpdate st v t o] ∧
        (updateOrderStatus db oid st v t).2.containers = db.containers := by
  intro db oid st v t o ho
  have hrun : updateOrderStatus db oid st v t =
      (.ok (updateOrderStatusUpdate st v t o),
        { db with
          orders := updateWhere (fun r => r.id == oid)
            (updateOrderStatusUpdate st v t) db.orders }) := by
    simp only [updateOrderStatus, updateOrderRow, ho]
  refine ⟨by rw [hrun], updateOrderStatusUpdate_status st v t o, ?_,
    by rw [hrun]⟩
  rw [hrun]
  exact filter_updateWhere_single (updateOrderStatusUpdate st v t)
    db.orders o ho
    (fun a => by rw [show (updateOrderStatusUpdate st v t a).id = a.id from
      updateOrderStatusUpdate_id st v t a])

/-- Closed instance of the amended C7 theorem: the terminal order 1
(`completed`) is happily moved backward to `pending`. -/
theorem updateOrderStatus_no_validation_witness :
    (updateOrderStatus (DB.mk [{ order0 with status := .completed }] [cont0])
        1 .pending none 9).1 =
      .ok (updateOrderStatusUpdate .pending none 9
        { order0 with status := .completed }) ∧
    (updateOrderStatusUpdate .pending none 9
        { order0 with status := .completed }).status = .pending ∧
    (updateOrderStatus (DB.mk [{ order0 with status := .completed }] [cont0])
        1 .pending none 9).2.orders.filter (fun r => r.id == (1 : Int)) =
      [updateOrderStatusUpdate .pending none 9
        { order0 with status := .completed }] ∧
    (updateOrderStatus (DB.mk [{ order0 with status := .completed }] [cont0])
        1 .pending none 9).2.containers =
      (DB.mk [{ order0 with status := .completed }] [cont0]).containers :=
  updateOrderStatus_no_validation
    (DB.mk [{ order0 with status := .completed }] [cont0]) 1 .pending none 9
    { order0 with status := .completed } (by decide)

/-! ### C8 — BatchReport applies samples independently -/

theorem length_filter_pair {α : Type} (p : α → Bool) :
    ∀ l : List α,
      (l.filter p).length + (l.filter (fun a => !p a)).length = l.length := by
  intro l
  induction l with
  | nil => rfl
  | cons a t ih =>
      by_cases hpa : p a <;> simp [List.filter_cons, hpa] <;> omega

theorem runBatch_length :
    ∀ (updates : List LocationUpdateReq) (db : DB) (t : Time),
      ((runBatch db updates t).1).length = updates.length := by
  intro updates
  induction updates with
  | nil => intro db t; rfl
  | cons u rest ih => intro db t; simp [runBatch, ih]

/-- C8: `updateMultipleContainerLocations` applies the per-sample location
update to every sample independently: every sample of the batch gets an
outcome (as many results as samples — nothing is skipped after a failure),
the head sample's outcome never stops the remaining samples from being
applied to the store it left behind, the function is total (the
`Promise.allSettled` collection never aborts the batch with an error), and
the returned counts satisfy `successful + failed = total = batch length`. -/
theorem updateMultipleContainerLocations_counts :
    ∀ (db : DB) (updates : List LocationUpdateReq) (t : Time),
      (updateMultipleContainerLocations db updates t).1.successful +
          (updateMultipleContainerLocations db updates t).1.failed =
        (updateMultipleContainerLocations db updates t).1.total ∧
      (updateMultipleContainerLocations db updates t).1.total
        = updates.length ∧
      ((runBatch db updates t).1).length = updates.length ∧
      (∀ (u : LocationUpdateReq) (rest : List LocationUpdateReq),
        (runBatch db (u :: rest) t).1 =
          (updateContainerLocation db u.containerId u.latitude u.longitude
            t).1 ::
            (runBatch (updateContainerLocation db u.containerId u.latitude
              u.longitude t).2.1 rest t).1) := by
  intro db updates t
  refine ⟨?_, rfl, runBatch_length updates db t, fun u rest => rfl⟩
  simp only [updateMultipleContainerLocations]
  rw [length_filter_pair]
  exact runBatch_length updates db t

/-! ### C9 — no partial assignment is ever persisted -/

/-- Invariant of one container row: `assigned_to` and `vehicle_id` are both
null or both non-null. -/
def ContainerInv (c : Container) : Prop :=
  c.assigned_to = none ↔ c.vehicle_id = none

instance (c : Container) : Decidable (ContainerInv c) := by
  unfold ContainerInv
  exact inferInstance

/-- The store-wide invariant: every persisted container row satisfies
`ContainerInv`. -/
def DBInv (db : DB) : Prop := ∀ c ∈ db.containers, ContainerInv c

instance (db : DB) : Decidable (DBInv db) := by
  unfold DBInv
  exact inferInstance

theorem inv_updateWhere {p : Container → Bool} {g : Container → Container}
    (hg : ∀ c, ContainerInv c → ContainerInv (g c)) (l : List Container)
    (h : ∀ c ∈ l, ContainerInv c) :
    ∀ c ∈ updateWhere p g l, ContainerInv c := by
  intro c hc
  simp only [updateWhere, List.mem_map] at hc
  obtain ⟨a, ha, rfl⟩ := hc
  by_cases hpa : p a
  · rw [if_pos hpa]
    exact hg a (h a ha)
  · rw [if_neg hpa]
    exact h a ha

theorem updateContainerRow_snd (db : DB) (cid : String)
    (f : Container → Container) :
    (updateContainerRow db cid f).2 =
      { db with
        containers :=
          updateWhere (fun c => c.id == cid) f db.containers } := by
  simp only [updateContainerRow]
  split <;> rfl

/-- C9: every container-mutating operation of the container service
preserves the invariant `assigned_to = null ⇔ vehicle_id = null` on every
persisted row: `assignContainer` writes both fields non-null,
`unassignContainer` writes both null, `createContainer` inserts with both
null (the insert payload carries neither column), and
`updateContainerLocation` / `updateContainerSensorData` touch neither
field.  No execution persists a container with exactly one of the two set. -/
theorem assignment_invariant_preserved :
    ∀ db : DB, DBInv db →
      (∀ (cid : String) (uid vid : Int) (t : Time),
        DBInv (assignContainer db cid uid vid t).2) ∧
      (∀ (cid : String) (oid : Int) (t : Time),
        DBInv (unassignContainer db cid oid t).2) ∧
      (∀ (d : NewContainerData) (newId : String) (t : Time),
        DBInv (createContainer db d newId t).2) ∧
      (∀ (cid : String) (lat lng : ℚ) (t : Time),
        DBInv (updateContainerLocation db cid lat lng t).2.1) ∧
      (∀ (cid : String) (s : SensorData) (t : Time),
        DBInv (updateContainerSensorData db cid s t).2) := by
  intro db h
  have hrow : ∀ (cid : String) (f : Container → Container),
      (∀ c, ContainerInv c → ContainerInv (f c)) →
      DBInv (updateContainerRow db cid f).2 := by
    intro cid f hf
    rw [updateContainerRow_snd db cid f]
    exact inv_updateWhere hf db.containers h
  refine ⟨?_, ?_, ?_, ?_, ?_⟩
  · intro cid uid vid t
    simp only [assignContainer]
    split_ifs with h1 h2 h3
    · exact h
    · exact h
    · exact h
    · have hm := hrow cid (assignContainerUpdate uid vid t)
        (fun c _ => by simp [ContainerInv, assignContainerUpdate])
      rcases hx : updateContainerRow db cid (assignContainerUpdate uid vid t)
        with ⟨x, db1⟩
      rw [hx] at hm
      cases x <;> exact hm
  · intro cid oid t
    simp only [unassignContainer]
    split_ifs with h1 h2
    · exact h
    · exact h
    · have hm := hrow cid (unassignContainerUpdate oid t)
        (fun c _ => by simp [ContainerInv, unassignContainerUpdate])
      rcases hx : updateContainerRow db cid (unassignContainerUpdate oid t)
        with ⟨x, db1⟩
      rw [hx] at hm
      cases x <;> exact hm
  · intro d newId t
    intro c hc
    simp only [createContainer, List.mem_append, List.mem_singleton] at hc
    rcases hc with hc | rfl
    · exact h c hc
    · simp [ContainerInv]
  · intro cid lat lng t
    have hm := hrow cid
      (fun x => { x with current_lat := some lat, current_lng := some lng,
                         last_updated := t })
      (fun c hc => hc)
    simp only [updateContainerLocation]
    rcases hx : updateContainerRow db cid
        (fun x => { x with current_lat := some lat, current_lng := some lng,
                           last_updated := t }) with ⟨x, db1⟩
    rw [hx] at hm
    cases x <;> exact hm
  · intro cid s t
    have hm := hrow cid
      (fun x => { x with temperature := spreadKey s.temperature x.temperature,
                         humidity := spreadKey s.humidity x.humidity,
                         battery_level := spreadKey s.battery_level
                           x.battery_level,
                         last_updated := t })
      (fun c hc => hc)
    simp only [updateContainerSensorData]
    rcases hx : updateContainerRow db cid
        (fun x => { x with temperature := spreadKey s.temperature
                             x.temperature,
                           humidity := spreadKey s.humidity x.humidity,
                           battery_level := spreadKey s.battery_level
                             x.battery_level,
                           last_updated := t }) with ⟨x, db1⟩
    rw [hx] at hm
    cases x <;> exact hm

/-- Closed instance of the C9 invariant theorem: all five operations
applied to a store holding the unassigned container "c1" (which satisfies
the invariant) leave a store satisfying it. -/
theorem assignment_invariant_preserved_witness :
    DBInv (DB.mk [] [cont0]) ∧
      DBInv (assignContainer (DB.mk [] [cont0]) "c1" 2 3 1).2 ∧
      DBInv (unassignContainer (DB.mk [] [cont0]) "c1" 1 1).2 ∧
      DBInv (createContainer (DB.mk [] [cont0])
        { name := "B", location := none, latitude := none, longitude := none,
          temperature := none, humidity := none, battery_level := none }
        "c2" 1).2 ∧
      DBInv (updateContainerLocation (DB.mk [] [cont0]) "c1" 1 2 1).2.1 ∧
      DBInv (updateContainerSensorData (DB.mk [] [cont0]) "c1"
        { temperature := some 20, humidity := none, battery_level := none }
        1).2 :=
  ⟨by decide,
    (assignment_invariant_preserved (DB.mk [] [cont0]) (by decide)).1 "c1" 2 3 1,
    (assignment_invariant_preserved (DB.mk [] [cont0]) (by decide)).2.1 "c1" 1 1,
    (assignment_invariant_preserved (DB.mk [] [cont0]) (by decide)).2.2.1
      { name := "B", location := none, latitude := none, longitude := none,
        temperature := none, humidity := none, battery_level := none } "c2" 1,
    (assignment_invariant_preserved (DB.mk [] [cont0]) (by decide)).2.2.2.1
      "c1" 1 2 1,
    (assignment_invariant_preserved (DB.mk [] [cont0]) (by decide)).2.2.2.2
      "c1" { temperature := some 20, humidity := none, battery_level := none }
      1⟩

/-! ### C10 — parsePostgresPoint / toPostgresPoint round-trip -/

/-- The head of `l` (if any) is not a digit — the condition under which the
greedy digit run stops exactly at the boundary. -/
def noDigitHead : List Char → Prop
  | [] => True
  | c :: _ => c.isDigit = false

/-- The head of `l` (if any) is not a decimal point. -/
def noDotHead : List Char → Prop
  | [] => True
  | c :: _ => c ≠ '.'

theorem spanDigits_append :
    ∀ (ds r : List Char), (∀ c ∈ ds, c.isDigit = true) → noDigitHead r →
      spanDigits (ds ++ r) = (ds, r) := by
  intro ds
  induction ds with
  | nil =>
      intro r _ hr
      cases r with
      | nil => rfl
      | cons c cs =>
          have hc : c.isDigit = false := hr
          simp [spanDigits, hc]
  | cons d t ih =>
      intro r hds hr
      have hd : d.isDigit = true := hds d (List.mem_cons_self d t)
      have ht : ∀ c ∈ t, c.isDigit = true :=
        fun c hc => hds c (List.mem_cons_of_mem d hc)
      simp only [List.cons_append, spanDigits, if_pos hd]
      rw [show t.append r = t ++ r from rfl, ih r ht hr]

theorem stripSign_minus (r : List Char) : stripSign ('-' :: r) = (['-'], r) := by
  simp [stripSign]

theorem stripSign_other (c : Char) (r : List Char) (h : c ≠ '-') :
    stripSign (c :: r) = ([], c :: r) := by
  simp [stripSign, h]

theorem stripDot_dot (r : List Char) : stripDot ('.' :: r) = (['.'], r) := by
  simp [stripDot]

theorem stripDot_sep (r : List Char) (h : noDotHead r) :
    stripDot r = ([], r) := by
  cases r with
  | nil => rfl
  | cons c cs =>
      have hc : c ≠ '.' := h
      simp [stripDot, hc]

theorem spanDigits_sep (r : List Char) (h : noDigitHead r) :
    spanDigits r = ([], r) :=
  spanDigits_append [] r (fun c hc => absurd hc (List.not_mem_nil c)) h

theorem matchNum_render_core (neg : Bool) (ip : List Char)
    (fp : Option (List Char)) (r : List Char)
    (hne : ip ≠ []) (hdig : ∀ c ∈ ip, c.isDigit = true)
    (hfr : ∀ c ∈ fp.getD [], c.isDigit = true)
    (h1 : noDigitHead r) (h2 : noDotHead r) :
    matchNum (((if neg then ['-'] else []) ++ ip ++ fracRender fp) ++ r) =
      some ((if neg then ['-'] else []) ++ ip ++ fracRender fp, r) := by
  obtain ⟨i0, irest, rfl⟩ : ∃ a l, ip = a :: l := by
    cases ip with
    | nil => exact absurd rfl hne
    | cons a l => exact ⟨a, l, rfl⟩
  have hi0 : i0.isDigit = true := hdig i0 (List.mem_cons_self i0 irest)
  have hi0m : i0 ≠ '-' := by
    intro e
    rw [e] at hi0
    exact absurd hi0 (by decide)
  cases fp with
  | none =>
      have hspan : spanDigits (i0 :: (irest ++ r)) = (i0 :: irest, r) := by
        have := spanDigits_append (i0 :: irest) r hdig h1
        simpa using this
      cases neg with
      | true =>
          simp only [fracRender, List.append_nil, List.cons_append,
            List.nil_append, if_pos, matchNum, stripSign_minus, hspan,
            stripDot_sep r h2, spanDigits_sep r h1]
          simp
      | false =>
          simp only [fracRender, List.append_nil, List.cons_append,
            List.nil_append, if_neg, Bool.false_eq_true, not_false_eq_true,
            matchNum, stripSign_other i0 (irest ++ r) hi0m, hspan,
            stripDot_sep r h2, spanDigits_sep r h1]
          simp
  | some cs =>
      have hcs : ∀ c ∈ cs, c.isDigit = true := by
        simpa using hfr
      have hdotHead : noDigitHead ('.' :: (cs ++ r)) := by
        show ('.').isDigit = false
        decide
      have hspan : spanDigits (i0 :: (irest ++ ('.' :: (cs ++ r)))) =
          (i0 :: irest, '.' :: (cs ++ r)) := by
        have := spanDigits_append (i0 :: irest) ('.' :: (cs ++ r)) hdig hdotHead
        simpa using this
      have hspan2 : spanDigits (cs ++ r) = (cs, r) :=
        spanDigits_append cs r hcs h1
      cases neg with
      | true =>
          simp only [fracRender, List.append_nil, List.cons_append,
            List.nil_append, List.append_assoc, if_pos, matchNum,
            stripSign_minus, hspan, stripDot_dot, hspan2]
          simp
      | false =>
          simp only [fracRender, List.append_nil, List.cons_append,
            List.nil_append, List.append_assoc, if_neg, Bool.false_eq_true,
            not_false_eq_true, matchNum, stripSign_other i0 _ hi0m, hspan,
            stripDot_dot, hspan2]
          simp

theorem matchNum_render (d : Dec) (hwf : d.wf) (r : List Char)
    (h1 : noDigitHead r) (h2 : noDotHead r) :
    matchNum (d.render ++ r) = some (d.render, r) := by
  obtain ⟨hne, hdig, hfr⟩ := hwf
  exact matchNum_render_core d.neg d.intPart d.fracPart r hne hdig hfr h1 h2

theorem noDigitHead_comma (x : List Char) : noDigitHead (',' :: x) := by
  show (',').isDigit = false
  decide

theorem noDotHead_comma (x : List Char) : noDotHead (',' :: x) := by
  show ',' ≠ '.'
  decide

theorem noDigitHead_close (x : List Char) : noDigitHead (')' :: x) := by
  show (')').isDigit = false
  decide

theorem noDotHead_close (x : List Char) : noDotHead (')' :: x) := by
  show ')' ≠ '.'
  decide

theorem matchAt_point (dlng dlat : Dec) (h1 : dlng.wf) (h2 : dlat.wf) :
    matchAt ('(' :: (dlng.render ++ (',' :: (dlat.render ++ [')'])))) =
      some (dlng.render, dlat.render) := by
  have e1 : matchNum (dlng.render ++ (',' :: (dlat.render ++ [')']))) =
      some (dlng.render, ',' :: (dlat.render ++ [')'])) :=
    matchNum_render dlng h1 (',' :: (dlat.render ++ [')']))
      (noDigitHead_comma (dlat.render ++ [')']))
      (noDotHead_comma (dlat.render ++ [')']))
  have e2 : matchNum (dlat.render ++ [')']) = some (dlat.render, [')']) :=
    matchNum_render dlat h2 [')'] (noDigitHead_close []) (noDotHead_close [])
  simp only [matchAt, if_pos rfl, e1, e2]
  simp

theorem matchPoint_of_matchAt (cs : List Char) (g : List Char × List Char)
    (h : matchAt cs = some g) : matchPoint cs = some g := by
  cases cs with
  | nil => simp [matchAt] at h
  | cons c r => simp only [matchPoint, h]

theorem parseFloatLit_core (neg : Bool) (ip : List Char)
    (fp : Option (List Char))
    (hne : ip ≠ []) (hdig : ∀ c ∈ ip, c.isDigit = true)
    (hfr : ∀ c ∈ fp.getD [], c.isDigit = true) :
    parseFloatLit ((if neg then ['-'] else []) ++ ip ++ fracRender fp) =
      (if neg then -((digitsVal ip : ℚ) + fracVal fp)
       else (digitsVal ip : ℚ) + fracVal fp) := by
  obtain ⟨i0, irest, rfl⟩ : ∃ a l, ip = a :: l := by
    cases ip with
    | nil => exact absurd rfl hne
    | cons a l => exact ⟨a, l, rfl⟩
  have hi0 : i0.isDigit = true := hdig i0 (List.mem_cons_self i0 irest)
  have hi0m : i0 ≠ '-' := by
    intro e
    rw [e] at hi0
    exact absurd hi0 (by decide)
  cases fp with
  | none =>
      have hspan : spanDigits (i0 :: irest) = (i0 :: irest, []) := by
        have := spanDigits_append (i0 :: irest) [] hdig trivial
        simpa using this
      cases neg with
      | true =>
          simp only [fracRender, fracVal, List.append_nil, List.cons_append,
            List.nil_append, if_pos, parseFloatLit, stripSign_minus, hspan,
            stripDot_sep [] trivial]
          simp [digitsVal]
      | false =>
          simp only [fracRender, fracVal, List.append_nil, List.cons_append,
            List.nil_append, if_neg, Bool.false_eq_true, not_false_eq_true,
            parseFloatLit, stripSign_other i0 irest hi0m, hspan,
            stripDot_sep [] trivial]
          simp [digitsVal]
  | some cs =>
      have hcs : ∀ c ∈ cs, c.isDigit = true := by
        simpa using hfr
      have hdotHead : noDigitHead ('.' :: cs) := by
        show ('.').isDigit = false
        decide
      have hspan : spanDigits (i0 :: (irest ++ ('.' :: cs))) =
          (i0 :: irest, '.' :: cs) := by
        have := spanDigits_append (i0 :: irest) ('.' :: cs) hdig hdotHead
        simpa using this
      have hspan2 : spanDigits cs = (cs, []) := by
        have := spanDigits_append cs [] hcs trivial
        simpa using this
      cases neg with
      | true =>
          simp only [fracRender, fracVal, List.append_nil, List.cons_append,
            List.nil_append, List.append_assoc, if_pos, parseFloatLit,
            stripSign_minus, hspan, stripDot_dot, hspan2]
          simp
      | false =>
          simp only [fracRender, fracVal, List.append_nil, List.cons_append,
            List.nil_append, List.append_assoc, if_neg, Bool.false_eq_true,
            not_false_eq_true, parseFloatLit, stripSign_other i0 _ hi0m,
            hspan, stripDot_dot, hspan2]
          simp

theorem parseFloatLit_render (d : Dec) (hwf : d.wf) :
    parseFloatLit d.render = d.val := by
  obtain ⟨hne, hdig, hfr⟩ := hwf
  exact parseFloatLit_core d.neg d.intPart d.fracPart hne hdig hfr

/-- C10: `parsePostgresPoint` is a left inverse of `toPostgresPoint` for
every coordinate pair whose two numbers serialize in plain decimal
notation (optional minus sign, digits, optional point and digits): parsing
the rendered `( lng , lat )` string recovers exactly the two numeric
values, with group 1 read back as `lng` and group 2 as `lat`; and on every
string the point regex does not match, the function does not propagate its
internal throw but returns the `SRI_LANKA_CENTER` fallback. -/
theorem parsePostgresPoint_roundtrip :
    (∀ c : DecCoords, c.lat.wf → c.lng.wf →
        parsePostgresPoint (toPostgresPoint c) =
          { lat := c.lat.val, lng := c.lng.val }) ∧
      (∀ s : String, matchPoint s.data = none →
        parsePostgresPoint s = SRI_LANKA_CENTER) := by
  constructor
  · intro c hlat hlng
    have hmatch : matchPoint ('(' :: (c.lng.render ++
        (',' :: (c.lat.render ++ [')'])))) =
        some (c.lng.render, c.lat.render) :=
      matchPoint_of_matchAt _ _ (matchAt_point c.lng c.lat hlng hlat)
    have hdata : (toPostgresPoint c).data =
        '(' :: (c.lng.render ++ (',' :: (c.lat.render ++ [')']))) := by
      simp [toPostgresPoint]
    simp only [parsePostgresPoint, hdata, hmatch,
      parseFloatLit_render c.lng hlng, parseFloatLit_render c.lat hlat]
  · intro s h
    simp only [parsePostgresPoint, h]

/-- Closed instance of the C10 theorem: the pair lat = 7.5, lng = -80
round-trips through `"(-80,7.5)"`, and the unparsable string `""` falls
back to `SRI_LANKA_CENTER`. -/
theorem parsePostgresPoint_roundtrip_witness :
    parsePostgresPoint (toPostgresPoint
        { lat := { neg := false, intPart := ['7'], fracPart := some ['5'] },
          lng := { neg := true, intPart := ['8', '0'], fracPart := none } }) =
      { lat := Dec.val { neg := false, intPart := ['7'],
                         fracPart := some ['5'] },
        lng := Dec.val { neg := true, intPart := ['8', '0'],
                         fracPart := none } } ∧
      parsePostgresPoint "" = SRI_LANKA_CENTER :=
  ⟨parsePostgresPoint_roundtrip.1
      { lat := { neg := false, intPart := ['7'], fracPart := some ['5'] },
        lng := { neg := true, intPart := ['8', '0'], fracPart := none } }
      (by decide) (by decide),
    parsePostgresPoint_roundtrip.2 "" (by decide)⟩

end GreenLink
